import Mathlib

/-!
Verification of the bank-circuit-breaker repository's degradation state
machine and its two drivers, shallowly embedded from the JavaScript source.

The embedding covers:
* `src/shared/dynamodb-operations.js` — the pure transition core of
  `incrementFailureCount` / `incrementSuccessCount` over the singleton
  system-state record (timestamps `lastTransition` / `lastUpdated` are not
  modelled: they are wall-clock reads with no bearing on the claims).
* `src/circuit-breaker-controller/index.js` — `getServiceEndpoint`, the
  outcome classification of `handleServiceRequest`, and the top-level
  `handler` dispatch, with DynamoDB / Lambda effects reified as an explicit
  list of transition-engine calls.
* `src/alarm-processor/index.js` — `parseAlarmMessage` (including the
  `Level(\d+)` regex extraction), the error-type inference of
  `processFailureAlarm`, and the per-record batch loop of the handler.
-/

namespace CircuitBreaker

/-- The singleton degradation-state record persisted under `pk = 'system-state'`
(`src/shared/dynamodb-operations.js`, `getSystemState`).  The timestamp fields
`lastTransition` and `lastUpdated` are omitted (wall-clock only). -/
structure SystemState where
  currentLevel : Nat
  failureCount : Nat
  successCount : Nat
  transitionReason : String
deriving DecidableEq, Repr

/-- The default state written by `getSystemState` when no record exists
(`dynamodb-operations.js` lines 31-39). -/
def initialState : SystemState :=
  { currentLevel := 1
    failureCount := 0
    successCount := 0
    transitionReason := "Initial state" }

/-- Pure transition core of `incrementFailureCount`
(`dynamodb-operations.js` lines 184-228): bump `failureCount`, zero
`successCount`, then check the failure thresholds against the pre-call
`currentLevel` and the post-increment `failureCount`.  Returns the updated
state together with the `transitioned` flag.  The `serviceType` / `errorType`
/ `serviceLevel` parameters of the JS function feed only the append-only
failure log, not the state transition, and are therefore not parameters
here. -/
def incrementFailureCount (currentState : SystemState) : SystemState × Bool :=
  let updatedState : SystemState :=
    { currentState with
        failureCount := currentState.failureCount + 1
        successCount := 0 }
  if currentState.currentLevel = 1 ∧ updatedState.failureCount ≥ 5 then
    ({ updatedState with
        currentLevel := 2
        transitionReason :=
          "Transition 1->2: " ++ toString updatedState.failureCount
            ++ " failures detected" }, true)
  else if currentState.currentLevel = 2 ∧ updatedState.failureCount ≥ 10 then
    ({ updatedState with
        currentLevel := 3
        transitionReason :=
          "Transition 2->3: " ++ toString updatedState.failureCount
            ++ " total failures detected" }, true)
  else
    (updatedState, false)

/-- Pure transition core of `incrementSuccessCount`
(`dynamodb-operations.js` lines 233-279): bump `successCount`, then check the
recovery thresholds against the pre-call `currentLevel`.  On a recovery
transition the code resets `failureCount` (lines 256/261) and, inside the
`shouldTransition` block, also resets `successCount` (line 268). -/
def incrementSuccessCount (currentState : SystemState) : SystemState × Bool :=
  let updatedState : SystemState :=
    { currentState with successCount := currentState.successCount + 1 }
  if currentState.currentLevel = 3 ∧ updatedState.successCount ≥ 3 then
    ({ updatedState with
        currentLevel := 2
        failureCount := 0
        successCount := 0
        transitionReason :=
          "Recovery 3->2: " ++ toString updatedState.successCount
            ++ " consecutive successes" }, true)
  else if currentState.currentLevel = 2 ∧ updatedState.successCount ≥ 5 then
    ({ updatedState with
        currentLevel := 1
        failureCount := 0
        successCount := 0
        transitionReason :=
          "Recovery 2->1: " ++ toString updatedState.successCount
            ++ " consecutive successes" }, true)
  else
    (updatedState, false)

/-- Iterated application: `n` sequential `recordFailure` calls, keeping only the state. -/
def recordFailures : Nat → SystemState → SystemState
  | 0, st => st
  | n + 1, st => recordFailures n (incrementFailureCount st).1

/-- Iterated application: `n` sequential `recordSuccess` calls, keeping only the state. -/
def recordSuccesses : Nat → SystemState → SystemState
  | 0, st => st
  | n + 1, st => recordSuccesses n (incrementSuccessCount st).1

/-! ## Routing controller (`src/circuit-breaker-controller/index.js`) -/

/-- A call into the transition engine, reified so that a routing run records
which state mutations it performs.  `recordFailure` carries the
`(serviceType, errorType, serviceLevel)` arguments of
`incrementFailureCount`; `recordSuccess` the `(serviceType, serviceLevel)`
of `incrementSuccessCount` (the response-time argument is wall clock and
not modelled).  `serviceType` is `Option String` because the controller's
`serviceTypeMap[systemState.currentLevel]` is `undefined` for a level
outside 1..3. -/
inductive EngineCall where
  | recordFailure (serviceType : Option String) (errorType : String) (level : Nat)
  | recordSuccess (serviceType : Option String) (level : Nat)
deriving DecidableEq, Repr

/-- Whether an engine call is a `recordFailure`. -/
def EngineCall.isRecordFailure : EngineCall → Bool
  | .recordFailure _ _ _ => true
  | .recordSuccess _ _ => false

/-- Whether an engine call is a `recordSuccess`. -/
def EngineCall.isRecordSuccess : EngineCall → Bool
  | .recordFailure _ _ _ => false
  | .recordSuccess _ _ => true

/-- The `endpoints` object inside `getServiceEndpoint`
(`circuit-breaker-controller/index.js` lines 39-43), with the environment
variables at their defaults; `endpoints[level]` is `undefined` (`none`) off
the three keys. -/
def endpoints (level : Nat) : Option String :=
  if level = 1 then some "full-service"
  else if level = 2 then some "degraded-service"
  else if level = 3 then some "maintenance-service"
  else none

/-- Embedding of `getServiceEndpoint` (`circuit-breaker-controller/index.js` lines 38-46):
`endpoints[level] || endpoints[3]`.  The argument is `Option Nat` so that a
missing (`undefined`) level field is representable. -/
def getServiceEndpoint (level : Option Nat) : String :=
  match level.bind endpoints with
  | some e => e
  | none => "maintenance-service"

/-- The `serviceTypeMap` object (`circuit-breaker-controller/index.js`
lines 246-250); `undefined` off the three keys. -/
def serviceTypeMap (level : Nat) : Option String :=
  if level = 1 then some "full-service"
  else if level = 2 then some "degraded-service"
  else if level = 3 then some "maintenance-service"
  else none

/-- Outcome of the synchronous `lambda.send(new InvokeCommand(...))` in
`handleServiceRequest`:
* `sendError` — the invoke call itself throws (service unreachable,
  connection/transport fault, SDK timeout of the call);
* `execError` — the invoke returns with `FunctionError` set (the downstream
  function failed to execute: unhandled exception or function timeout);
* `noPayload` — the invoke returns without `FunctionError` but with no
  `Payload` (line 317 then throws into the local catch);
* `payload statusCode hasHeaders` — the returned payload parses to a
  response object with the given `statusCode` (and a `headers` object when
  `hasHeaders`). -/
inductive InvokeOutcome where
  | sendError
  | execError
  | noPayload
  | payload (statusCode : Nat) (hasHeaders : Bool)
deriving DecidableEq, Repr

/-- The observable result of one controller run: the HTTP status code of the
returned response, the `X-Routed-To` header (absent on responses that carry
no such header), and the transition-engine calls performed, in order. -/
structure RouteOutcome where
  statusCode : Nat
  routedTo : Option String
  calls : List EngineCall
deriving DecidableEq, Repr

/-- Embedding of `handleServiceRequest` (`circuit-breaker-controller/index.js`
lines 235-393), as a function of the current state and the invoke outcome:
* `FunctionError` set → `incrementFailureCount(target, "LambdaExecutionError",
  level)` and a synthesized 503 (lines 276-308);
* no payload → the `throw` at line 317 lands in the local catch, which
  returns the 503 maintenance fallback with no engine call (lines 359-392);
* payload with `statusCode >= 400` → `incrementFailureCount(target,
  "ServiceError", level)` and the downstream response passed through
  (lines 321-332);
* payload with `statusCode < 400` → `incrementSuccessCount(target, level,
  elapsed)` and the downstream response passed through (lines 333-342);
* the invoke call throwing → the same local catch: 503 fallback, no engine
  call.
The pass-through response gets the `X-Routed-To` header only when the
payload already had a `headers` object (lines 351-355). -/
def handleServiceRequest (systemState : SystemState) (inv : InvokeOutcome) :
    RouteOutcome :=
  let targetServiceType := serviceTypeMap systemState.currentLevel
  match inv with
  | .sendError =>
      { statusCode := 503
        routedTo := some "maintenance-fallback"
        calls := [] }
  | .execError =>
      { statusCode := 503
        routedTo := targetServiceType
        calls := [.recordFailure targetServiceType "LambdaExecutionError"
                    systemState.currentLevel] }
  | .noPayload =>
      { statusCode := 503
        routedTo := some "maintenance-fallback"
        calls := [] }
  | .payload statusCode hasHeaders =>
      if statusCode ≥ 400 then
        { statusCode := statusCode
          routedTo := if hasHeaders then targetServiceType else none
          calls := [.recordFailure targetServiceType "ServiceError"
                      systemState.currentLevel] }
      else
        { statusCode := statusCode
          routedTo := if hasHeaders then targetServiceType else none
          calls := [.recordSuccess targetServiceType systemState.currentLevel] }

/-- Result of the initial `dynamoOperations.getSystemState()` read at
`circuit-breaker-controller/index.js` line 79: either the state, or the
store read threw. -/
inductive StoreRead where
  | ok (st : SystemState)
  | failed
deriving DecidableEq, Repr

/-- The controller's top-level `handler` (`circuit-breaker-controller/index.js`
lines 70-137) restricted to its observable routing behavior.  A throwing
store read reaches the outer catch (lines 107-136), which returns the
maintenance-mode error response with `statusCode: 500` and performs no
engine call.  Otherwise GET returns the 200 status snapshot (read-only),
POST delegates to `handleServiceRequest`, and any other method gets a 405. -/
def handler (httpMethod : String) (store : StoreRead) (inv : InvokeOutcome) :
    RouteOutcome :=
  match store with
  | .failed =>
      { statusCode := 500
        routedTo := none
        calls := [] }
  | .ok systemState =>
      if httpMethod = "GET" then
        { statusCode := 200, routedTo := none, calls := [] }
      else if httpMethod = "POST" then
        handleServiceRequest systemState inv
      else
        { statusCode := 405, routedTo := none, calls := [] }

/-! ## Reconciliation processor (`src/alarm-processor/index.js`) -/

/-- Test `startsWithList needle hay`: `hay` begins with `needle`. -/
def startsWithList : List Char → List Char → Bool
  | [], _ => true
  | _ :: _, [] => false
  | a :: as, b :: bs => a = b && startsWithList as bs

/-- Test `containsSub needle hay`: `needle` occurs contiguously in `hay`
(the semantics of JavaScript `hay.includes(needle)`). -/
def containsSub (needle : List Char) : List Char → Bool
  | [] => needle.isEmpty
  | c :: rest => startsWithList needle (c :: rest) || containsSub needle rest

/-- JavaScript `hay.includes(needle)` on strings. -/
def strContains (hay needle : String) : Bool :=
  containsSub needle.data hay.data

/-- The maximal leading run of decimal digits. -/
def leadingDigits : List Char → List Char
  | [] => []
  | c :: cs => if c.isDigit then c :: leadingDigits cs else []

/-- Value of a decimal digit string (the behavior of JavaScript
`parseInt` on the strings this development applies it to: non-empty
all-digit strings). -/
def digitsVal (ds : List Char) : Nat :=
  ds.foldl (fun acc c => acc * 10 + (c.toNat - 48)) 0

/-- The JavaScript regular-expression match `alarmName.match(/Level(\d+)/)`
(`alarm-processor/index.js` line 71): scan left to right for the literal
`Level` followed by at least one digit, and capture the maximal digit run;
`none` when no position matches. -/
def levelDigits : List Char → Option (List Char)
  | 'L' :: 'e' :: 'v' :: 'e' :: 'l' :: d :: rest =>
      if d.isDigit then some (d :: leadingDigits rest)
      else levelDigits ('e' :: 'v' :: 'e' :: 'l' :: d :: rest)
  | _ :: cs => levelDigits cs
  | [] => none

/-- The fields `parseAlarmMessage` reads from a CloudWatch alarm object
(`alarm-processor/index.js` lines 60-64), after JSON decoding and SNS
unwrapping have already succeeded. -/
structure AlarmData where
  alarmName : String
  alarmDescription : String
  newStateValue : String
  oldStateValue : String
  stateReason : String
deriving DecidableEq, Repr

/-- The record returned by `parseAlarmMessage`
(`alarm-processor/index.js` lines 83-95). -/
structure AlarmInfo where
  alarmName : String
  alarmDescription : String
  newStateValue : String
  oldStateValue : String
  stateReason : String
  isFailureAlarm : Bool
  isRecoveryAlarm : Bool
  serviceLevel : Nat
  serviceType : String
  isAlarmState : Bool
  isOkState : Bool
deriving DecidableEq, Repr

/-- Embedding of `parseAlarmMessage` (`alarm-processor/index.js` lines 49-101) on an
already-decoded alarm object.  With an object input carrying string fields,
no statement in the function's `try` block can throw, so the embedding is
total: classification from substring tests on the alarm name, level from the
`Level(\d+)` match defaulting to `'1'`, service type from the string-keyed
level map defaulting to `'unknown-service'`, and the two state flags from
`NewStateValue`. -/
def parseAlarmMessage (alarmData : AlarmData) : AlarmInfo :=
  let alarmName := alarmData.alarmName
  let isFailureAlarm :=
    strContains alarmName "ErrorRate" || strContains alarmName "Failure"
  let isRecoveryAlarm :=
    strContains alarmName "Recovery" || strContains alarmName "Success"
  let serviceLevelStr :=
    match levelDigits alarmName.data with
    | some ds => String.mk ds
    | none => "1"
  let serviceType :=
    if serviceLevelStr = "1" then "full-service"
    else if serviceLevelStr = "2" then "degraded-service"
    else if serviceLevelStr = "3" then "maintenance-service"
    else "unknown-service"
  { alarmName := alarmName
    alarmDescription := alarmData.alarmDescription
    newStateValue := alarmData.newStateValue
    oldStateValue := alarmData.oldStateValue
    stateReason := alarmData.stateReason
    isFailureAlarm := isFailureAlarm
    isRecoveryAlarm := isRecoveryAlarm
    serviceLevel := digitsVal serviceLevelStr.data
    serviceType := serviceType
    isAlarmState := alarmData.newStateValue == "ALARM"
    isOkState := alarmData.newStateValue == "OK" }

/-- The error-type inference of `processFailureAlarm`
(`alarm-processor/index.js` lines 110-116): it tests substrings of
`alarmInfo.alarmName`. -/
def inferErrorType (alarmName : String) : String :=
  if strContains alarmName "Timeout" then "TimeoutError"
  else if strContains alarmName "Rate" then "HighErrorRate"
  else "SystemError"

/-- The error-type inference as the spec words it (its `reason` field
description): the same substring chain, but applied to the notification's
free-text reason (`StateReason`) instead of the alarm name.  Kept separate
so it can be compared with `inferErrorType`, which embeds the code. -/
def specErrorTypeFromReason (reason : String) : String :=
  if strContains reason "Timeout" then "TimeoutError"
  else if strContains reason "Rate" then "HighErrorRate"
  else "SystemError"

/-- The body of one SQS record as the handler sees it after
`JSON.parse(record.body)` and the optional SNS unwrapping
(`alarm-processor/index.js` lines 210-218): either those decodings threw
(`malformed`, carrying the error message) or they produced an alarm
object. -/
inductive SqsBody where
  | malformed (err : String)
  | alarm (d : AlarmData)
deriving DecidableEq, Repr

/-- One SQS record of the batch event. -/
structure SqsRecord where
  messageId : String
  body : SqsBody
deriving DecidableEq, Repr

/-- One entry of the handler's `results` array
(`alarm-processor/index.js` lines 248-254 and 259-263). -/
structure ItemResult where
  messageId : String
  processed : Bool
  alarmName : Option String
  transitioned : Option Bool
  newLevel : Option Nat
  err : Option String
deriving DecidableEq, Repr

/-- One iteration of the handler's per-record loop
(`alarm-processor/index.js` lines 205-270), threading the stored state:
* malformed body → the per-record catch pushes `{processed: false, error}`;
* `isOkState` → `continue` with no `results` entry and no mutation
  (lines 225-228);
* not `isAlarmState` → likewise skipped (lines 231-234);
* failure-class alarm → `processFailureAlarm`, i.e.
  `incrementFailureCount(serviceType, inferErrorType(alarmName),
  serviceLevel)`, then a `{processed: true, transitioned, newLevel}` entry;
* recovery-class alarm → `processRecoveryAlarm`, i.e.
  `incrementSuccessCount(serviceType, serviceLevel, 50)`, then the same
  kind of entry;
* unknown class → `continue`, no entry, no mutation (lines 243-246).
Returns the new state, the optional `results` entry, and the engine calls
performed. -/
def processRecord (st : SystemState) (r : SqsRecord) :
    SystemState × Option ItemResult × List EngineCall :=
  match r.body with
  | .malformed e =>
      (st,
       some { messageId := r.messageId, processed := false, alarmName := none
              transitioned := none, newLevel := none, err := some e },
       [])
  | .alarm d =>
      let info := parseAlarmMessage d
      if info.isOkState then (st, none, [])
      else if !info.isAlarmState then (st, none, [])
      else if info.isFailureAlarm then
        let result := incrementFailureCount st
        (result.1,
         some { messageId := r.messageId, processed := true
                alarmName := some info.alarmName
                transitioned := some result.2
                newLevel := some result.1.currentLevel, err := none },
         [.recordFailure (some info.serviceType) (inferErrorType info.alarmName)
            info.serviceLevel])
      else if info.isRecoveryAlarm then
        let result := incrementSuccessCount st
        (result.1,
         some { messageId := r.messageId, processed := true
                alarmName := some info.alarmName
                transitioned := some result.2
                newLevel := some result.1.currentLevel, err := none },
         [.recordSuccess (some info.serviceType) info.serviceLevel])
      else (st, none, [])

/-- The whole per-record loop of the alarm-processor handler over a batch,
accumulating `results` entries and engine calls in order. -/
def processBatch (st : SystemState) : List SqsRecord →
    SystemState × List ItemResult × List EngineCall
  | [] => (st, [], [])
  | r :: rest =>
      let step := processRecord st r
      let restRun := processBatch step.1 rest
      (restRun.1, step.2.1.toList ++ restRun.2.1, step.2.2 ++ restRun.2.2)

/-- Count of processed items, `processedCount` (`alarm-processor/index.js` line 273). -/
def processedCount (results : List ItemResult) : Nat :=
  (results.filter fun r => r.processed).length

/-- Count of errored items, `errorCount` (`alarm-processor/index.js` line 274). -/
def errorCount (results : List ItemResult) : Nat :=
  (results.filter fun r => !r.processed).length

end CircuitBreaker

/-! ## Claim theorems -/

namespace CircuitBreaker

/-- C1: starting from the initial state `{level 1, failureCount 0,
successCount 0}`, each `recordFailure` call increments `failureCount` by 1
and zeroes `successCount`; after 5 sequential calls the state is
`{level 2, failureCount 5, successCount 0}`, and after 5 further calls with
no intervening success the state has `level 3` and `failureCount 10`
(`failureCount` is not reset on the 1→2 transition). -/
theorem c1_failure_counting_and_thresholds :
    (∀ st : SystemState,
        (incrementFailureCount st).1.failureCount = st.failureCount + 1 ∧
        (incrementFailureCount st).1.successCount = 0) ∧
    (recordFailures 5 initialState).currentLevel = 2 ∧
    (recordFailures 5 initialState).failureCount = 5 ∧
    (recordFailures 5 initialState).successCount = 0 ∧
    (recordFailures 5 (recordFailures 5 initialState)).currentLevel = 3 ∧
    (recordFailures 5 (recordFailures 5 initialState)).failureCount = 10 := by
  refine ⟨?_, by decide, by decide, by decide, by decide, by decide⟩
  intro st
  unfold incrementFailureCount
  constructor <;> (dsimp only; split <;> first | rfl | (split <;> rfl))

/-- C2: from any state with `level 3` and `successCount 0`, 3 sequential
`recordSuccess` calls yield `level 2, failureCount 0, successCount 0`; from
any state with `level 2` and `successCount 0`, 5 sequential `recordSuccess`
calls yield `level 1, failureCount 0, successCount 0` — each recovery
transition resets both counters. -/
theorem c2_recovery_transitions_reset_counters (fc : Nat) (reason : String) :
    ((recordSuccesses 3
        { currentLevel := 3, failureCount := fc, successCount := 0,
          transitionReason := reason }).currentLevel = 2 ∧
     (recordSuccesses 3
        { currentLevel := 3, failureCount := fc, successCount := 0,
          transitionReason := reason }).failureCount = 0 ∧
     (recordSuccesses 3
        { currentLevel := 3, failureCount := fc, successCount := 0,
          transitionReason := reason }).successCount = 0) ∧
    ((recordSuccesses 5
        { currentLevel := 2, failureCount := fc, successCount := 0,
          transitionReason := reason }).currentLevel = 1 ∧
     (recordSuccesses 5
        { currentLevel := 2, failureCount := fc, successCount := 0,
          transitionReason := reason }).failureCount = 0 ∧
     (recordSuccesses 5
        { currentLevel := 2, failureCount := fc, successCount := 0,
          transitionReason := reason }).successCount = 0) :=
  ⟨⟨rfl, rfl, rfl⟩, ⟨rfl, rfl, rfl⟩⟩

/-- C3 counterexample: at `level 1, failureCount 3, successCount 0` a single
`recordSuccess` call does not reset `failureCount` to 0 — the claim fails at
this concrete state. -/
theorem c3_success_reset_counterexample :
    ¬ ((incrementSuccessCount
          { currentLevel := 1, failureCount := 3, successCount := 0,
            transitionReason := "Initial state" }).1.failureCount = 0) := by
  decide

/-- C3 (amended): for every state with `level 1` and `failureCount 3`, a
single `recordSuccess` call leaves `failureCount` at 3 and the level at 1
(the code resets `failureCount` only on the 3→2 / 2→1 recovery
transitions), so the 1→2 transition still occurs at the original pace: the
next 2 failures bring `failureCount` to 5 and the level to 2. -/
theorem c3_success_at_level1_keeps_failure_count (st : SystemState)
    (h1 : st.currentLevel = 1) (h2 : st.failureCount = 3) :
    (incrementSuccessCount st).1.failureCount = 3 ∧
    (incrementSuccessCount st).1.currentLevel = 1 ∧
    (recordFailures 2 (incrementSuccessCount st).1).currentLevel = 2 ∧
    (recordFailures 2 (incrementSuccessCount st).1).failureCount = 5 := by
  obtain ⟨l, f, s, r⟩ := st
  dsimp only at h1 h2
  subst h1 h2
  exact ⟨rfl, rfl, rfl, rfl⟩

/-- C3 witness: the amended statement instantiated at the concrete state
`{level 1, failureCount 3, successCount 0}`. -/
theorem c3_success_at_level1_keeps_failure_count_witness :
    ({ currentLevel := 1, failureCount := 3, successCount := 0,
       transitionReason := "Initial state" } : SystemState).currentLevel = 1 ∧
    ({ currentLevel := 1, failureCount := 3, successCount := 0,
       transitionReason := "Initial state" } : SystemState).failureCount = 3 ∧
    ((incrementSuccessCount
        { currentLevel := 1, failureCount := 3, successCount := 0,
          transitionReason := "Initial state" }).1.failureCount = 3 ∧
     (incrementSuccessCount
        { currentLevel := 1, failureCount := 3, successCount := 0,
          transitionReason := "Initial state" }).1.currentLevel = 1 ∧
     (recordFailures 2 (incrementSuccessCount
        { currentLevel := 1, failureCount := 3, successCount := 0,
          transitionReason := "Initial state" }).1).currentLevel = 2 ∧
     (recordFailures 2 (incrementSuccessCount
        { currentLevel := 1, failureCount := 3, successCount := 0,
          transitionReason := "Initial state" }).1).failureCount = 5) :=
  ⟨rfl, rfl,
    c3_success_at_level1_keeps_failure_count
      { currentLevel := 1, failureCount := 3, successCount := 0,
        transitionReason := "Initial state" } rfl rfl⟩

end CircuitBreaker

namespace CircuitBreaker

/-- C4 counterexample: when the invoke call itself throws (downstream
unreachable / transport fault), the controller returns the 503 fallback but
performs zero `recordFailure` calls, refuting "calls recordFailure exactly
once" at this concrete input. -/
theorem c4_transport_fault_counterexample :
    (handleServiceRequest initialState InvokeOutcome.sendError).statusCode = 503 ∧
    (handleServiceRequest initialState InvokeOutcome.sendError).calls = [] ∧
    ¬ (((handleServiceRequest initialState InvokeOutcome.sendError).calls.filter
          EngineCall.isRecordFailure).length = 1) := by
  decide

/-- C4 (amended): when the downstream invocation returns a `FunctionError`
(the handler failed to execute, which is how a handler timeout surfaces),
the controller calls `recordFailure` exactly once with errorType
`LambdaExecutionError`, never calls `recordSuccess`, and returns a locally
synthesized 503; when the invoke call itself throws (unreachable /
transport fault), the controller returns a locally synthesized 503 fallback
with no `recordFailure` and no `recordSuccess` call at all. -/
theorem c4_invocation_failure_classification (st : SystemState) :
    ((handleServiceRequest st InvokeOutcome.execError).statusCode = 503 ∧
     (handleServiceRequest st InvokeOutcome.execError).calls =
       [EngineCall.recordFailure (serviceTypeMap st.currentLevel)
          "LambdaExecutionError" st.currentLevel] ∧
     ((handleServiceRequest st InvokeOutcome.execError).calls.filter
        EngineCall.isRecordFailure).length = 1 ∧
     (handleServiceRequest st InvokeOutcome.execError).calls.filter
        EngineCall.isRecordSuccess = []) ∧
    ((handleServiceRequest st InvokeOutcome.sendError).statusCode = 503 ∧
     (handleServiceRequest st InvokeOutcome.sendError).calls = []) :=
  ⟨⟨rfl, rfl, rfl, rfl⟩, ⟨rfl, rfl⟩⟩

/-- C5 counterexample: when the state-store read throws, the controller's
outer catch returns statusCode 500, not the 503 the claim states. -/
theorem c5_store_failure_counterexample :
    (handler "POST" StoreRead.failed InvokeOutcome.sendError).statusCode = 500 ∧
    ¬ ((handler "POST" StoreRead.failed InvokeOutcome.sendError).statusCode = 503) := by
  decide

/-- C5 (amended): for every request during which the state-store read
throws, the controller returns a synthesized maintenance-mode error
response with statusCode 500 (not 503) and performs no state mutation —
neither `recordFailure` nor `recordSuccess` is called, so the stored state
is unchanged. -/
theorem c5_store_failure_no_mutation (httpMethod : String) (inv : InvokeOutcome) :
    (handler httpMethod StoreRead.failed inv).statusCode = 500 ∧
    (handler httpMethod StoreRead.failed inv).calls = [] :=
  ⟨rfl, rfl⟩

/-- C8: from any state whose level is 1, 2 or 3, a single `recordFailure`
moves the level only along 1→2 or 2→3 (or not at all) and a single
`recordSuccess` only along 3→2 or 2→1 (or not at all); in particular no
single call moves directly between levels 1 and 3. -/
theorem c8_single_step_level_moves (st : SystemState)
    (h : st.currentLevel = 1 ∨ st.currentLevel = 2 ∨ st.currentLevel = 3) :
    ((incrementFailureCount st).1.currentLevel = st.currentLevel ∨
      (st.currentLevel = 1 ∧ (incrementFailureCount st).1.currentLevel = 2) ∨
      (st.currentLevel = 2 ∧ (incrementFailureCount st).1.currentLevel = 3)) ∧
    ((incrementSuccessCount st).1.currentLevel = st.currentLevel ∨
      (st.currentLevel = 3 ∧ (incrementSuccessCount st).1.currentLevel = 2) ∨
      (st.currentLevel = 2 ∧ (incrementSuccessCount st).1.currentLevel = 1)) ∧
    ¬ (st.currentLevel = 1 ∧ (incrementFailureCount st).1.currentLevel = 3) ∧
    ¬ (st.currentLevel = 3 ∧ (incrementFailureCount st).1.currentLevel = 1) ∧
    ¬ (st.currentLevel = 1 ∧ (incrementSuccessCount st).1.currentLevel = 3) ∧
    ¬ (st.currentLevel = 3 ∧ (incrementSuccessCount st).1.currentLevel = 1) := by
  obtain ⟨l, f, s, r⟩ := st
  simp only [incrementFailureCount, incrementSuccessCount]
  rcases h with h | h | h <;> subst h <;>
    refine ⟨?_, ?_, ?_, ?_, ?_, ?_⟩ <;>
    · dsimp only
      repeat' split
      all_goals simp_all

/-- C8 witness: the single-step property instantiated at the initial state
(level 1). -/
theorem c8_single_step_level_moves_witness :
    (initialState.currentLevel = 1 ∨ initialState.currentLevel = 2 ∨
      initialState.currentLevel = 3) ∧
    (((incrementFailureCount initialState).1.currentLevel = initialState.currentLevel ∨
       (initialState.currentLevel = 1 ∧
         (incrementFailureCount initialState).1.currentLevel = 2) ∨
       (initialState.currentLevel = 2 ∧
         (incrementFailureCount initialState).1.currentLevel = 3)) ∧
     ((incrementSuccessCount initialState).1.currentLevel = initialState.currentLevel ∨
       (initialState.currentLevel = 3 ∧
         (incrementSuccessCount initialState).1.currentLevel = 2) ∨
       (initialState.currentLevel = 2 ∧
         (incrementSuccessCount initialState).1.currentLevel = 1)) ∧
     ¬ (initialState.currentLevel = 1 ∧
         (incrementFailureCount initialState).1.currentLevel = 3) ∧
     ¬ (initialState.currentLevel = 3 ∧
         (incrementFailureCount initialState).1.currentLevel = 1) ∧
     ¬ (initialState.currentLevel = 1 ∧
         (incrementSuccessCount initialState).1.currentLevel = 3) ∧
     ¬ (initialState.currentLevel = 3 ∧
         (incrementSuccessCount initialState).1.currentLevel = 1)) :=
  ⟨Or.inl rfl, c8_single_step_level_moves initialState (Or.inl rfl)⟩

/-- C9: for every level value outside `{1, 2, 3}` — including a missing
(`undefined`) level — `getServiceEndpoint` falls back to the
maintenance-service endpoint. -/
theorem c9_unknown_level_maintenance_fallback (level : Option Nat)
    (h1 : level ≠ some 1) (h2 : level ≠ some 2) (h3 : level ≠ some 3) :
    getServiceEndpoint level = "maintenance-service" := by
  cases level with
  | none => rfl
  | some n =>
    have n1 : n ≠ 1 := fun h => h1 (by rw [h])
    have n2 : n ≠ 2 := fun h => h2 (by rw [h])
    have n3 : n ≠ 3 := fun h => h3 (by rw [h])
    simp [getServiceEndpoint, endpoints, n1, n2, n3]

/-- C9 witness: the fallback instantiated at the out-of-range level 4. -/
theorem c9_unknown_level_maintenance_fallback_witness :
    (some 4 : Option Nat) ≠ some 1 ∧ (some 4 : Option Nat) ≠ some 2 ∧
    (some 4 : Option Nat) ≠ some 3 ∧
    getServiceEndpoint (some 4) = "maintenance-service" :=
  ⟨by decide, by decide, by decide,
    c9_unknown_level_maintenance_fallback (some 4) (by decide) (by decide) (by decide)⟩

end CircuitBreaker

namespace CircuitBreaker

/-- C6 counterexample: a batch whose single notification has
`NewStateValue = "OK"` produces an empty `results` array — the item is not
marked processed (it contributes no entry and counts for nothing), refuting
"the item is marked processed in the batch summary". -/
theorem c6_ok_item_counterexample :
    (processBatch initialState
        [{ messageId := "m1",
           body := SqsBody.alarm
             { alarmName := "CircuitBreaker-ErrorRate-Level1"
               alarmDescription := ""
               newStateValue := "OK"
               oldStateValue := "ALARM"
               stateReason := "threshold crossed" } }]).2.1 = [] ∧
    processedCount (processBatch initialState
        [{ messageId := "m1",
           body := SqsBody.alarm
             { alarmName := "CircuitBreaker-ErrorRate-Level1"
               alarmDescription := ""
               newStateValue := "OK"
               oldStateValue := "ALARM"
               stateReason := "threshold crossed" } }]).2.1 = 0 :=
  ⟨rfl, rfl⟩

/-- C6 (amended): for every notification whose `NewStateValue` is `"OK"`,
processing it leaves the stored state (level, failureCount, successCount)
unchanged and performs no engine call; however the item is skipped
entirely — it contributes no entry to the batch summary, appearing neither
as processed nor as errored. -/
theorem c6_ok_notification_skipped (st : SystemState) (id : String)
    (d : AlarmData) (h : d.newStateValue = "OK") :
    processRecord st { messageId := id, body := SqsBody.alarm d } =
      (st, none, []) := by
  obtain ⟨n, desc, ns, os, sr⟩ := d
  dsimp only at h
  subst h
  rfl

/-- C6 witness: the amended statement instantiated at the initial state and
a concrete Ok-resolving notification. -/
theorem c6_ok_notification_skipped_witness :
    ({ alarmName := "CircuitBreaker-Recovery-Level2"
       alarmDescription := ""
       newStateValue := "OK"
       oldStateValue := "ALARM"
       stateReason := "recovered" } : AlarmData).newStateValue = "OK" ∧
    processRecord initialState
        { messageId := "w6",
          body := SqsBody.alarm
            { alarmName := "CircuitBreaker-Recovery-Level2"
              alarmDescription := ""
              newStateValue := "OK"
              oldStateValue := "ALARM"
              stateReason := "recovered" } } = (initialState, none, []) :=
  ⟨rfl,
    c6_ok_notification_skipped initialState "w6"
      { alarmName := "CircuitBreaker-Recovery-Level2"
        alarmDescription := ""
        newStateValue := "OK"
        oldStateValue := "ALARM"
        stateReason := "recovered" } rfl⟩

/-- C7 counterexample: a failure alarm named `CircuitBreaker-Failure-Level2`
whose reason text contains `Timeout` is recorded with errorType
`SystemError` (inferred from the name), not the `TimeoutError` that
reason-based inference would give — refuting the claim at this input. -/
theorem c7_reason_inference_counterexample :
    (processRecord initialState
        { messageId := "m1",
          body := SqsBody.alarm
            { alarmName := "CircuitBreaker-Failure-Level2"
              alarmDescription := ""
              newStateValue := "ALARM"
              oldStateValue := "OK"
              stateReason := "Timeout threshold crossed" } }).2.2 =
      [EngineCall.recordFailure (some "degraded-service") "SystemError" 2] ∧
    specErrorTypeFromReason "Timeout threshold crossed" = "TimeoutError" ∧
    ¬ ((processRecord initialState
        { messageId := "m1",
          body := SqsBody.alarm
            { alarmName := "CircuitBreaker-Failure-Level2"
              alarmDescription := ""
              newStateValue := "ALARM"
              oldStateValue := "OK"
              stateReason := "Timeout threshold crossed" } }).2.2 =
      [EngineCall.recordFailure (some "degraded-service")
        (specErrorTypeFromReason "Timeout threshold crossed") 2]) := by
  refine ⟨rfl, rfl, ?_⟩
  decide

/-- C7 (amended): for every failure-class notification in Alarm state, the
errorType passed to `recordFailure` is inferred from the alarm's *name*
(not its reason text): name containing `Timeout` → `TimeoutError`, else
name containing `Rate` → `HighErrorRate`, else `SystemError`. -/
theorem c7_error_type_from_alarm_name (st : SystemState) (id : String)
    (d : AlarmData) (halarm : d.newStateValue = "ALARM")
    (hfail : (parseAlarmMessage d).isFailureAlarm = true) :
    (processRecord st { messageId := id, body := SqsBody.alarm d }).2.2 =
      [EngineCall.recordFailure (some (parseAlarmMessage d).serviceType)
        (inferErrorType d.alarmName) (parseAlarmMessage d).serviceLevel] := by
  have hok : (parseAlarmMessage d).isOkState = false := by
    show (d.newStateValue == "OK") = false
    rw [halarm]; decide
  have has : (parseAlarmMessage d).isAlarmState = true := by
    show (d.newStateValue == "ALARM") = true
    rw [halarm]; decide
  simp [processRecord, hok, has, hfail]
  rfl

/-- C7 witness: the amended statement instantiated at a concrete
`ErrorRate`-named failure alarm. -/
theorem c7_error_type_from_alarm_name_witness :
    ({ alarmName := "CircuitBreaker-ErrorRate-Level1"
       alarmDescription := ""
       newStateValue := "ALARM"
       oldStateValue := "OK"
       stateReason := "error rate high" } : AlarmData).newStateValue = "ALARM" ∧
    (parseAlarmMessage
      { alarmName := "CircuitBreaker-ErrorRate-Level1"
        alarmDescription := ""
        newStateValue := "ALARM"
        oldStateValue := "OK"
        stateReason := "error rate high" }).isFailureAlarm = true ∧
    (processRecord initialState
        { messageId := "w7",
          body := SqsBody.alarm
            { alarmName := "CircuitBreaker-ErrorRate-Level1"
              alarmDescription := ""
              newStateValue := "ALARM"
              oldStateValue := "OK"
              stateReason := "error rate high" } }).2.2 =
      [EngineCall.recordFailure
        (some (parseAlarmMessage
          { alarmName := "CircuitBreaker-ErrorRate-Level1"
            alarmDescription := ""
            newStateValue := "ALARM"
            oldStateValue := "OK"
            stateReason := "error rate high" }).serviceType)
        (inferErrorType "CircuitBreaker-ErrorRate-Level1")
        (parseAlarmMessage
          { alarmName := "CircuitBreaker-ErrorRate-Level1"
            alarmDescription := ""
            newStateValue := "ALARM"
            oldStateValue := "OK"
            stateReason := "error rate high" }).serviceLevel] :=
  ⟨rfl, by decide,
    c7_error_type_from_alarm_name initialState "w7"
      { alarmName := "CircuitBreaker-ErrorRate-Level1"
        alarmDescription := ""
        newStateValue := "ALARM"
        oldStateValue := "OK"
        stateReason := "error rate high" } rfl (by decide)⟩

/-- C10: for every alarm object whose name contains no `Level<digit>`
substring, `parseAlarmMessage` raises no parse error and defaults
`serviceLevel` to 1 and `serviceType` to `full-service`; any `results`
entry such a notification produces in the batch loop is a processed one,
never an errored one. -/
theorem c10_missing_level_defaults (d : AlarmData) (st : SystemState)
    (id : String) (res : ItemResult)
    (h : levelDigits d.alarmName.data = none) :
    (parseAlarmMessage d).serviceLevel = 1 ∧
    (parseAlarmMessage d).serviceType = "full-service" ∧
    ((processRecord st { messageId := id, body := SqsBody.alarm d }).2.1 =
        some res → res.processed = true) := by
  refine ⟨?_, ?_, ?_⟩
  · simp [parseAlarmMessage, h]
    decide
  · simp [parseAlarmMessage, h]
  · intro hr
    simp only [processRecord] at hr
    split at hr
    · simp at hr
    · split at hr
      · simp at hr
      · split at hr
        · simp only [Option.some.injEq] at hr
          subst hr
          rfl
        · split at hr
          · simp only [Option.some.injEq] at hr
            subst hr
            rfl
          · simp at hr

/-- C10 witness: defaults instantiated at a concrete alarm whose name
carries no level digit; the result entry it actually produces is a
processed one. -/
theorem c10_missing_level_defaults_witness :
    levelDigits ("CircuitBreaker-ErrorRate-Alarm" : String).data = none ∧
    ((parseAlarmMessage
        { alarmName := "CircuitBreaker-ErrorRate-Alarm"
          alarmDescription := ""
          newStateValue := "ALARM"
          oldStateValue := "OK"
          stateReason := "r" }).serviceLevel = 1 ∧
     (parseAlarmMessage
        { alarmName := "CircuitBreaker-ErrorRate-Alarm"
          alarmDescription := ""
          newStateValue := "ALARM"
          oldStateValue := "OK"
          stateReason := "r" }).serviceType = "full-service" ∧
     ((processRecord initialState
         { messageId := "w10",
           body := SqsBody.alarm
             { alarmName := "CircuitBreaker-ErrorRate-Alarm"
               alarmDescription := ""
               newStateValue := "ALARM"
               oldStateValue := "OK"
               stateReason := "r" } }).2.1 =
        some { messageId := "w10", processed := true
               alarmName := some "CircuitBreaker-ErrorRate-Alarm"
               transitioned := some false, newLevel := some 1, err := none } →
       ({ messageId := "w10", processed := true
          alarmName := some "CircuitBreaker-ErrorRate-Alarm"
          transitioned := some false, newLevel := some 1,
          err := none } : ItemResult).processed = true)) :=
  ⟨by decide,
    c10_missing_level_defaults
      { alarmName := "CircuitBreaker-ErrorRate-Alarm"
        alarmDescription := ""
        newStateValue := "ALARM"
        oldStateValue := "OK"
        stateReason := "r" }
      initialState "w10"
      { messageId := "w10", processed := true
        alarmName := some "CircuitBreaker-ErrorRate-Alarm"
        transitioned := some false, newLevel := some 1, err := none }
      (by decide)⟩

end CircuitBreaker
